import Mathlib

/-!
Shallow embedding of `src/app/client_app.py`, the response-interpretation and
visualization pipeline of the intent-classification dashboard.

JSON payloads are modelled by the inductive type `Json` (numbers as exact
rationals, objects as association lists in insertion order, matching Python
dict insertion order after `json.loads`).  Python exceptions raised while
rendering are modelled by `Except PyError`; the single generic
`except Exception` handler of `main` is modelled by `processData` turning an
error into the generic error message while keeping whatever output had
already been rendered before the exception was raised.
-/

/-- A parsed JSON value, as produced by `response.json()`.  Numbers are exact
rationals; object fields keep insertion order and are assumed key-unique, as
in a Python dict. -/
inductive Json where
  | null
  | bool (b : Bool)
  | num (q : ℚ)
  | str (s : String)
  | arr (elems : List Json)
  | obj (fields : List (String × Json))

/-- Python exception classes that the rendering code can raise. -/
inductive PyError where
  | attributeError
  | typeError
  | valueError
deriving DecidableEq

/-- Whether an `Except` computation succeeded. -/
def exOk {α : Type} : Except PyError α → Bool
  | .ok _ => true
  | .error _ => false

/-- Python truthiness (`bool(x)`) of a parsed JSON value: `None`, `False`,
`0`, empty string, empty list and empty dict are falsy. -/
def Json.truthy : Json → Bool
  | .null => false
  | .bool b => b
  | .num q => decide (q ≠ 0)
  | .str s => !s.isEmpty
  | .arr xs => !xs.isEmpty
  | .obj kvs => !kvs.isEmpty

/-- First-match lookup in an association list (Python dict lookup; keys are
assumed unique). -/
def lookupField : List (String × Json) → String → Option Json
  | [], _ => none
  | (k, v) :: rest, key => if k = key then some v else lookupField rest key

/-- Models `d.get(key, default)` where `key` is an arbitrary Python value:
on a non-dict receiver `.get` raises `AttributeError`; an unhashable key
(list or dict) raises `TypeError`; a hashable key that is not a string can
never match a JSON object key, so the default is returned. -/
def pyDictGet (dict : Json) (key : Json) (dflt : Json) : Except PyError Json :=
  match dict with
  | .obj kvs =>
    match key with
    | .str s => .ok ((lookupField kvs s).getD dflt)
    | .arr _ => .error .typeError
    | .obj _ => .error .typeError
    | _ => .ok dflt
  | _ => .error .attributeError

/-- Models `s.replace(c1, c2)` for single-character patterns. -/
def replaceChar (c1 c2 : Char) (s : String) : String :=
  ⟨s.data.map (fun c => if c = c1 then c2 else c)⟩

/-- Models Python `str.capitalize()` (ASCII fragment): first character
uppercased, every following character lowercased. -/
def pyCapitalize (s : String) : String :=
  match s.data with
  | [] => ""
  | c :: cs => ⟨Char.toUpper c :: cs.map Char.toLower⟩

/-- Models Python `str.upper()` (ASCII fragment). -/
def pyUpper (s : String) : String :=
  ⟨s.data.map Char.toUpper⟩

/-- List-of-characters form of `pyCapitalize`. -/
def capList : List Char → List Char
  | [] => []
  | c :: cs => Char.toUpper c :: cs.map Char.toLower

/-- `format_label` from the source: remove underscores and capitalize, i.e.
`label.replace("_", " ").capitalize()`. -/
def format_label (label : String) : String :=
  pyCapitalize (replaceChar '_' ' ' label)

/-- Tab label for a model key: `name.replace("-", " ").upper()` (line 127 of
the source). -/
def tabLabel (name : String) : String :=
  pyUpper (replaceChar '-' ' ' name)

/-- Characters stripped by Python `str.strip()` (ASCII whitespace). -/
def pySpace (c : Char) : Bool :=
  c = ' ' || c = '\t' || c = '\n' || c = '\r' || c.toNat = 11 || c.toNat = 12

/-- Models Python `str.strip()`: drop leading and trailing whitespace. -/
def pyStrip (s : String) : String :=
  ⟨((s.data.dropWhile pySpace).reverse.dropWhile pySpace).reverse⟩

/-- Floor of a rational: its numerator floor-divided by its denominator
(denominators are positive, so this is the mathematical floor). -/
def ratFloor (q : ℚ) : ℤ :=
  q.num.fdiv q.den

/-- Round the fraction `n / d` (with `d` positive) to the nearest integer,
ties to even — the rounding used by Python float formatting on exactly
representable halfway values. -/
def roundHalfEvenFrac (n d : ℤ) : ℤ :=
  let f := n.fdiv d
  let r := n.fmod d
  if 2 * r < d then f
  else if d < 2 * r then f + 1
  else if f % 2 = 0 then f else f + 1

/-- Models the `.1%` format specifier: value times 100 rendered with one
decimal digit and a percent sign (e.g. `0.823` becomes `"82.3%"`), computed
as the half-even rounding of `q * 1000` split into tenths. -/
def formatPct1 (q : ℚ) : String :=
  let n := roundHalfEvenFrac (q.num * 1000) (q.den : ℤ)
  let a := n.natAbs
  (if n < 0 then "-" else "") ++ toString (a / 10) ++ "." ++ toString (a % 10) ++ "%"

/-- Models `format(x, '.1%')` on an arbitrary value: floats and ints (hence
bools) are formatted; strings raise `ValueError` (unknown format code for
`str`), other values raise `TypeError`. -/
def pyFormatPct : Json → Except PyError String
  | .num q => .ok (formatPct1 q)
  | .bool b => .ok (formatPct1 (if b then 1 else 0))
  | .str _ => .error .valueError
  | _ => .error .typeError

/-- Digit test for decimal parsing. -/
def isDigitChar (c : Char) : Bool :=
  48 ≤ c.toNat && c.toNat ≤ 57

/-- Numeric value of a list of decimal digits. -/
def digitsToNat (ds : List Char) : Nat :=
  ds.foldl (fun a c => a * 10 + (c.toNat - 48)) 0

/-- Models `float(s)` on a string: optional surrounding whitespace, optional
sign, decimal digits with optional fraction and optional exponent.  Returns
`none` where Python would raise `ValueError`. -/
def parseDecimal? (s : String) : Option ℚ :=
  let cs0 := (((s.data.dropWhile pySpace).reverse.dropWhile pySpace).reverse)
  let (sgn, cs1) : ℚ × List Char :=
    match cs0 with
    | '-' :: t => (-1, t)
    | '+' :: t => (1, t)
    | _ => (1, cs0)
  let ip := cs1.takeWhile isDigitChar
  let cs2 := cs1.dropWhile isDigitChar
  let (fp, cs3) : List Char × List Char :=
    match cs2 with
    | '.' :: t => (t.takeWhile isDigitChar, t.dropWhile isDigitChar)
    | _ => ([], cs2)
  if ip.isEmpty && fp.isEmpty then none
  else
    let mant : ℚ := (digitsToNat ip : ℚ) + (digitsToNat fp : ℚ) / ((10 : ℚ) ^ fp.length)
    match cs3 with
    | [] => some (sgn * mant)
    | 'e' :: t =>
      let (esgn, t2) : ℤ × List Char :=
        match t with
        | '-' :: u => (-1, u)
        | '+' :: u => (1, u)
        | _ => (1, t)
      let ed := t2.takeWhile isDigitChar
      let rest := t2.dropWhile isDigitChar
      if ed.isEmpty || !rest.isEmpty then none
      else some (sgn * mant * (10 : ℚ) ^ (esgn * (digitsToNat ed : ℤ)))
    | 'E' :: t =>
      let (esgn, t2) : ℤ × List Char :=
        match t with
        | '-' :: u => (-1, u)
        | '+' :: u => (1, u)
        | _ => (1, t)
      let ed := t2.takeWhile isDigitChar
      let rest := t2.dropWhile isDigitChar
      if ed.isEmpty || !rest.isEmpty then none
      else some (sgn * mant * (10 : ℚ) ^ (esgn * (digitsToNat ed : ℤ)))
    | _ => none

/-- Models the float conversion performed by `astype(float)` on one value:
numbers pass through, bools become 0 or 1, numeric strings are parsed,
anything else raises. -/
def pyFloat : Json → Except PyError ℚ
  | .num q => .ok q
  | .bool b => .ok (if b then 1 else 0)
  | .str s =>
    match parseDecimal? s with
    | some q => .ok q
    | none => .error .valueError
  | _ => .error .typeError

/-- One bar of the probability chart, as built by `plot_probabilities`:
formatted intent label, confidence, and the `.1%` text shown on the bar. -/
structure ChartRow where
  label : String
  conf : ℚ
  text : String
deriving DecidableEq

/-- Insert a row into a list already sorted by ascending confidence, after
any rows with equal confidence (stable ascending insertion). -/
def insertRow (r : ChartRow) : List ChartRow → List ChartRow
  | [] => [r]
  | h :: t => if h.conf ≤ r.conf then h :: insertRow r t else r :: h :: t

/-- Stable sort by ascending confidence, modelling
`df.sort_values(by='Confiança', ascending=True)`. -/
def sortRows (rows : List ChartRow) : List ChartRow :=
  rows.foldl (fun acc r => insertRow r acc) []

/-- Float-convert every value of the probability mapping, in order, modelling
`df['Confiança'].astype(float)` (which fails if any single value fails). -/
def convRows : List (String × Json) → Except PyError (List (String × ℚ))
  | [] => .ok []
  | (k, v) :: rest =>
    match pyFloat v with
    | .error e => .error e
    | .ok q =>
      match convRows rest with
      | .error e => .error e
      | .ok tail => .ok ((k, q) :: tail)

/-- `plot_probabilities` from the source, reduced to the data of the figure:
convert the dict items to rows, float-convert the confidences, format the
labels with `format_label`, sort ascending by confidence, and attach the
`.1%` bar text.  A non-dict argument raises (`.items` is missing). -/
def plot_probabilities (probs : Json) : Except PyError (List ChartRow) :=
  match probs with
  | .obj kvs =>
    match convRows kvs with
    | .error e => .error e
    | .ok conv =>
      .ok (sortRows (conv.map (fun p => ChartRow.mk (format_label p.1) p.2 (formatPct1 p.2))))
  | _ => .error .attributeError

/-- Display model of one model tab: the highlight card (formatted top intent
and the `.1%` confidence text) and either the chart rows or `none` for the
"Sem dados de probabilidade detalhados." placeholder shown when `all_probs`
is falsy. -/
structure ModelView where
  cardLabel : String
  cardPct : String
  topScore : Json
  chart : Option (List ChartRow)

/-- Rendering of one model tab (lines 131-160 of the source).  A non-dict
entry raises on `.get`; a missing `top_intent` defaults to the string
`"Desconhecido"`; a missing `all_probs` defaults to an empty dict;
`top_score = probs.get(top_intent, 0.0)`; the card interpolates
`format_label(top_intent)` (raises unless `top_intent` is a string) and
`top_score:.1%`; the chart is built only when `probs` is truthy. -/
def renderModel (md : Json) : Except PyError ModelView :=
  match md with
  | .obj mkvs =>
    let topIntent := (lookupField mkvs "top_intent").getD (.str "Desconhecido")
    let probs := (lookupField mkvs "all_probs").getD (.obj [])
    match pyDictGet probs topIntent (.num 0) with
    | .error e => .error e
    | .ok topScore =>
      match topIntent with
      | .str t =>
        match pyFormatPct topScore with
        | .error e => .error e
        | .ok pct =>
          if probs.truthy then
            match plot_probabilities probs with
            | .error e => .error e
            | .ok rows => .ok (ModelView.mk (format_label t) pct topScore (some rows))
          else .ok (ModelView.mk (format_label t) pct topScore none)
      | _ => .error .attributeError
  | _ => .error .attributeError

/-- The per-model rendering loop: views already rendered are kept; the first
exception aborts the loop, leaving later entries unrendered, and is reported
to the surrounding handler. -/
def renderModels : List (String × Json) → List ModelView × Option PyError
  | [] => ([], none)
  | (_, md) :: rest =>
    match renderModel md with
    | .error e => ([], some e)
    | .ok v =>
      let r := renderModels rest
      (v :: r.1, r.2)

/-- Civil date from a count of days since 1970-01-01 (proleptic Gregorian),
the arithmetic underlying `datetime.fromtimestamp`: returns
(year, month, day). -/
def civilFromDays (z0 : ℤ) : ℤ × ℤ × ℤ :=
  let z := z0 + 719468
  let era := Int.fdiv z 146097
  let doe := z - era * 146097
  let yoe := (doe - doe / 1460 + doe / 36524 - doe / 146096) / 365
  let y := yoe + era * 400
  let doy := doe - (365 * yoe + yoe / 4 - yoe / 100)
  let mp := (5 * doy + 2) / 153
  let d := doy - (153 * mp + 2) / 5 + 1
  let m := mp + (if mp < 10 then 3 else -9)
  (y + (if m ≤ 2 then 1 else 0), m, d)

/-- Two-digit zero-padded rendering of a (nonnegative) field. -/
def pad2 (n : ℤ) : String :=
  if n < 10 then "0" ++ toString n else toString n

/-- Year of the local civil date of an epoch timestamp, for a local timezone
at `off` seconds east of UTC. -/
def tsYear (off : ℤ) (q : ℚ) : ℤ :=
  (civilFromDays (Int.ediv (ratFloor q + off) 86400)).1

/-- Whether `datetime.fromtimestamp` succeeds: the local civil year must lie
in the `datetime` range 1..9999 (boundary modelled at year granularity). -/
def tsInRange (off : ℤ) (q : ℚ) : Bool :=
  1 ≤ tsYear off q && tsYear off q ≤ 9999

/-- Models `datetime.fromtimestamp(ts).strftime('%d/%m/%Y %H:%M')` for a
local timezone at `off` seconds east of UTC. -/
def strftimeDMYHM (off : ℤ) (q : ℚ) : String :=
  let t : ℤ := ratFloor q + off
  let days := Int.ediv t 86400
  let sod := Int.emod t 86400
  let c := civilFromDays days
  pad2 c.2.2 ++ "/" ++ pad2 c.2.1 ++ "/" ++ toString c.1 ++ " " ++
    pad2 (sod / 3600) ++ ":" ++ pad2 (sod % 3600 / 60)

/-- Values accepted by `datetime.fromtimestamp`: ints and floats (and bools,
which are ints in Python). -/
def pyNumVal : Json → Option ℚ
  | .num q => some q
  | .bool b => some (if b then 1 else 0)
  | _ => none

/-- What the metadata sidebar shows for the timestamp: nothing (field
omitted), the formatted `Data:` line, or the raw value on the fallback
`Timestamp:` line. -/
inductive TsDisplay where
  | omitted
  | formatted (text : String)
  | raw (value : Json)

/-- The metadata sidebar: the value shown for `id`, for `owner`, and the
timestamp line. -/
structure MetaPanel where
  idVal : Json
  ownerVal : Json
  tsDisp : TsDisplay

/-- Sidebar rendering (lines 99-114 of the source): `id` and `owner` default
to the string `"N/A"`; the timestamp line is shown only when `ts` is truthy,
formatted via `fromtimestamp`/`strftime` when that succeeds, and echoing the
raw value when the bare `except:` catches the conversion failure. -/
def buildMeta (off : ℤ) (kvs : List (String × Json)) : MetaPanel :=
  { idVal := (lookupField kvs "id").getD (.str "N/A")
    ownerVal := (lookupField kvs "owner").getD (.str "N/A")
    tsDisp :=
      let ts := (lookupField kvs "timestamp").getD .null
      if ts.truthy then
        match pyNumVal ts with
        | some q => if tsInRange off q then .formatted (strftimeDMYHM off q) else .raw ts
        | none => .raw ts
      else .omitted }

/-- The error message of line 120 of the source, shown when `predictions` is
missing or falsy. -/
def noPredictionsMsg : String := "A API não retornou predições no formato esperado."

/-- Python class name of a modelled exception. -/
def PyError.className : PyError → String
  | .attributeError => "AttributeError"
  | .typeError => "TypeError"
  | .valueError => "ValueError"

/-- The generic handler message of line 167 of the source; the `str(e)`
detail is abstracted by the exception class name. -/
def genericErrorMsg (e : PyError) : String :=
  "Ocorreu um erro: " ++ e.className

/-- Everything the result area of the page shows for one response: the
metadata sidebar (when its rendering was reached), the `st.error` message if
any, the tab headers, and the per-model tab contents. -/
structure Display where
  meta : Option MetaPanel
  errorMsg : Option String
  tabLabels : List String
  views : List ModelView

/-- The response-interpretation pipeline of `main` (lines 96-160 plus the
generic handler of lines 165-167), applied to the parsed JSON body: render
the sidebar, reject falsy `predictions` with `noPredictionsMsg`, otherwise
create one tab header per model and render each tab; any exception aborts the
remaining rendering and surfaces as the generic error message. -/
def processData (off : ℤ) (data : Json) : Display :=
  match data with
  | .obj kvs =>
    let meta := buildMeta off kvs
    let preds := (lookupField kvs "predictions").getD (.obj [])
    if preds.truthy then
      match preds with
      | .obj pkvs =>
        let r := renderModels pkvs
        { meta := some meta
          errorMsg := r.2.map genericErrorMsg
          tabLabels := pkvs.map (fun p => tabLabel p.1)
          views := r.1 }
      | _ =>
        { meta := some meta
          errorMsg := some (genericErrorMsg .attributeError)
          tabLabels := []
          views := [] }
    else
      { meta := some meta
        errorMsg := some noPredictionsMsg
        tabLabels := []
        views := [] }
  | _ =>
    { meta := none
      errorMsg := some (genericErrorMsg .attributeError)
      tabLabels := []
      views := [] }

/-- Outcome of pressing the analyze button (lines 80-89 of the source):
either the blank-input warning with an early return before any request, or a
POST dispatched to the API with the text as payload. -/
structure AnalyzeTrace where
  warnedBlank : Bool
  requestSent : Bool
deriving DecidableEq

/-- The blank-input guard of `main`: if `text_input.strip()` is falsy, warn
and return before dispatching; otherwise the request is sent. -/
def analyzeAction (textInput : String) : AnalyzeTrace :=
  if (pyStrip textInput).isEmpty then
    { warnedBlank := true, requestSent := false }
  else
    { warnedBlank := false, requestSent := true }

/-! ### Concrete payloads used to settle the claims -/

/-- A response whose `model_a` entry is well-formed and whose `model_b` entry
lacks both `top_intent` and `all_probs`. -/
def dataMixedEntries : Json :=
  .obj [("predictions", .obj [
    ("model_a", .obj [
      ("top_intent", .str "order_status"),
      ("all_probs", .obj [("order_status", .num (mkRat 41 50))])]),
    ("model_b", .obj [])])]

/-- A response with a confidence of 1.5, outside the unit interval. -/
def dataOutOfRange : Json :=
  .obj [("predictions", .obj [
    ("m", .obj [
      ("top_intent", .str "a"),
      ("all_probs", .obj [("a", .num (mkRat 3 2))])])])]

/-- A response whose first model entry carries a numeric `top_intent` (which
makes the card formatting raise) followed by a well-formed entry. -/
def dataBadThenGood : Json :=
  .obj [("predictions", .obj [
    ("a", .obj [("top_intent", .num 42), ("all_probs", .obj [])]),
    ("b", .obj [
      ("top_intent", .str "x"),
      ("all_probs", .obj [("x", .num (mkRat 1 2))])])])]

/-- A well-formed model entry used as a rendering-loop element. -/
def goodEntry : Json :=
  .obj [("top_intent", .str "x"), ("all_probs", .obj [("x", .num (mkRat 1 2))])]

/-- A model entry whose numeric `top_intent` makes the card formatting raise. -/
def badEntry : Json :=
  .obj [("top_intent", .num 42), ("all_probs", .obj [])]

/-- The success-scenario response of the specification. -/
def dataSuccess : Json :=
  .obj [("predictions", .obj [("model_a", .obj [
    ("top_intent", .str "order_status"),
    ("all_probs", .obj [
      ("order_status", .num (mkRat 82 100)),
      ("complaint", .num (mkRat 10 100)),
      ("greeting", .num (mkRat 8 100))])])])]

/-- A response whose `predictions` field is a truthy non-mapping value. -/
def dataPredsNotMapping : Json :=
  .obj [("predictions", .str "x")]

/-- A two-entry probability mapping used to witness chart ordering. -/
def probsTwo : Json :=
  .obj [("a", .num (mkRat 1 2)), ("b", .num (mkRat 1 4))]

/-! ### Character-level facts about the ASCII case maps -/

theorem char_toNat_ofNat (n : Nat) (h : n < 55296) : (Char.ofNat n).toNat = n := by
  unfold Char.ofNat
  rw [dif_pos (Or.inl h)]
  rfl

theorem char_eq_of_toNat_eq {a b : Char} (h : a.toNat = b.toNat) : a = b := by
  have h2 := congrArg Char.ofNat h
  rwa [Char.ofNat_toNat, Char.ofNat_toNat] at h2

theorem toUpper_toNat (c : Char) :
    (Char.toUpper c).toNat = if 97 ≤ c.toNat ∧ c.toNat ≤ 122 then c.toNat - 32 else c.toNat := by
  simp only [Char.toUpper, ge_iff_le]
  by_cases h : 97 ≤ c.toNat ∧ c.toNat ≤ 122
  · rw [if_pos h, if_pos h]
    exact char_toNat_ofNat _ (by omega)
  · rw [if_neg h, if_neg h]

theorem toLower_toNat (c : Char) :
    (Char.toLower c).toNat = if 65 ≤ c.toNat ∧ c.toNat ≤ 90 then c.toNat + 32 else c.toNat := by
  simp only [Char.toLower, ge_iff_le]
  by_cases h : 65 ≤ c.toNat ∧ c.toNat ≤ 90
  · rw [if_pos h, if_pos h]
    exact char_toNat_ofNat _ (by omega)
  · rw [if_neg h, if_neg h]

theorem toUpper_toUpper (c : Char) : Char.toUpper (Char.toUpper c) = Char.toUpper c := by
  apply char_eq_of_toNat_eq
  have hc := toUpper_toNat c
  by_cases h : 97 ≤ c.toNat ∧ c.toNat ≤ 122
  · rw [if_pos h] at hc
    rw [toUpper_toNat (Char.toUpper c), hc, if_neg (by omega)]
  · rw [if_neg h] at hc
    rw [toUpper_toNat (Char.toUpper c), hc, if_neg h]

theorem toLower_toLower (c : Char) : Char.toLower (Char.toLower c) = Char.toLower c := by
  apply char_eq_of_toNat_eq
  have hc := toLower_toNat c
  by_cases h : 65 ≤ c.toNat ∧ c.toNat ≤ 90
  · rw [if_pos h] at hc
    rw [toLower_toNat (Char.toLower c), hc, if_neg (by omega)]
  · rw [if_neg h] at hc
    rw [toLower_toNat (Char.toLower c), hc, if_neg h]

theorem toUpper_ne_underscore {c : Char} (h : c ≠ '_') : Char.toUpper c ≠ '_' := by
  intro he
  have h2 : (Char.toUpper c).toNat = 95 := by rw [he]; rfl
  rw [toUpper_toNat] at h2
  have h3 : c.toNat ≠ 95 := fun hn => h (char_eq_of_toNat_eq hn)
  revert h2
  split <;> omega

theorem toLower_ne_underscore {c : Char} (h : c ≠ '_') : Char.toLower c ≠ '_' := by
  intro he
  have h2 : (Char.toLower c).toNat = 95 := by rw [he]; rfl
  rw [toLower_toNat] at h2
  have h3 : c.toNat ≠ 95 := fun hn => h (char_eq_of_toNat_eq hn)
  revert h2
  split <;> omega

/-! ### List-level view of `pyCapitalize` -/

theorem pyCapitalize_mk (l : List Char) : pyCapitalize ⟨l⟩ = ⟨capList l⟩ := by
  cases l <;> rfl

theorem capList_repl_capList (m : List Char) (hm : ∀ x ∈ m, x ≠ '_') :
    capList ((capList m).map (fun c => if c = '_' then ' ' else c)) = capList m := by
  cases m with
  | nil => rfl
  | cons c cs =>
    have hc : c ≠ '_' := hm c (List.mem_cons_self c cs)
    simp only [capList, List.map_cons, List.map_map]
    rw [if_neg (toUpper_ne_underscore hc), toUpper_toUpper]
    congr 1
    apply List.map_congr_left
    intro x hx
    have hx2 : x ≠ '_' := hm x (List.mem_cons_of_mem c hx)
    simp only [Function.comp_apply]
    rw [if_neg (toLower_ne_underscore hx2), toLower_toLower]

/-! ### Facts about the ascending insertion sort of chart rows -/

theorem mem_insertRow (x r : ChartRow) (l : List ChartRow) :
    x ∈ insertRow r l ↔ x = r ∨ x ∈ l := by
  induction l with
  | nil => simp [insertRow]
  | cons h t ih =>
    simp only [insertRow]
    by_cases hc : h.conf ≤ r.conf
    · rw [if_pos hc]
      rw [List.mem_cons, List.mem_cons, ih]
      tauto
    · rw [if_neg hc]
      rw [List.mem_cons, List.mem_cons]

theorem insertRow_pairwise (r : ChartRow) (l : List ChartRow)
    (h : l.Pairwise (fun a b => a.conf ≤ b.conf)) :
    (insertRow r l).Pairwise (fun a b => a.conf ≤ b.conf) := by
  induction l with
  | nil => simp [insertRow]
  | cons hd t ih =>
    rw [List.pairwise_cons] at h
    simp only [insertRow]
    by_cases hc : hd.conf ≤ r.conf
    · rw [if_pos hc]
      rw [List.pairwise_cons]
      constructor
      · intro x hx
        rcases (mem_insertRow x r t).mp hx with he | hm
        · rw [he]; exact hc
        · exact h.1 x hm
      · exact ih h.2
    · rw [if_neg hc]
      rw [List.pairwise_cons]
      constructor
      · intro x hx
        rcases List.mem_cons.mp hx with he | hm
        · rw [he]; exact le_of_lt (lt_of_not_le hc)
        · exact le_trans (le_of_lt (lt_of_not_le hc)) (h.1 x hm)
      · exact List.pairwise_cons.mpr h

theorem foldl_insertRow_pairwise (l acc : List ChartRow)
    (h : acc.Pairwise (fun a b => a.conf ≤ b.conf)) :
    (l.foldl (fun a r => insertRow r a) acc).Pairwise (fun a b => a.conf ≤ b.conf) := by
  induction l generalizing acc with
  | nil => exact h
  | cons hd t ih => exact ih _ (insertRow_pairwise hd acc h)

theorem sortRows_pairwise (l : List ChartRow) :
    (sortRows l).Pairwise (fun a b => a.conf ≤ b.conf) :=
  foldl_insertRow_pairwise l [] List.Pairwise.nil

theorem mem_foldl_insertRow (x : ChartRow) (l acc : List ChartRow)
    (h : x ∈ acc ∨ x ∈ l) :
    x ∈ l.foldl (fun a r => insertRow r a) acc := by
  induction l generalizing acc with
  | nil => simpa using h
  | cons hd t ih =>
    apply ih
    rcases h with ha | hl
    · exact Or.inl ((mem_insertRow x hd acc).mpr (Or.inr ha))
    · rcases List.mem_cons.mp hl with he | hm
      · exact Or.inl ((mem_insertRow x hd acc).mpr (Or.inl he))
      · exact Or.inr hm

theorem mem_sortRows (x : ChartRow) (l : List ChartRow) (h : x ∈ l) :
    x ∈ sortRows l :=
  mem_foldl_insertRow x l [] (Or.inr h)

/-! ### Facts about the float conversion of the probability column -/

theorem convRows_ok (kvs : List (String × Json))
    (h : ∀ p ∈ kvs, exOk (pyFloat p.2) = true) :
    ∃ conv, convRows kvs = .ok conv := by
  induction kvs with
  | nil => exact ⟨[], rfl⟩
  | cons hd t ih =>
    obtain ⟨k0, v0⟩ := hd
    have h1 : exOk (pyFloat v0) = true := h (k0, v0) (List.mem_cons_self _ _)
    obtain ⟨q, hq⟩ : ∃ q, pyFloat v0 = .ok q := by
      cases hv : pyFloat v0 with
      | ok q => exact ⟨q, rfl⟩
      | error e => rw [hv] at h1; simp [exOk] at h1
    obtain ⟨tail, htail⟩ := ih (fun p hp => h p (List.mem_cons_of_mem _ hp))
    refine ⟨(k0, q) :: tail, ?_⟩
    simp only [convRows]
    rw [hq, htail]

theorem convRows_mem (kvs : List (String × Json)) (conv : List (String × ℚ))
    (k : String) (v : Json) (q : ℚ)
    (hc : convRows kvs = .ok conv) (hm : (k, v) ∈ kvs) (hq : pyFloat v = .ok q) :
    (k, q) ∈ conv := by
  induction kvs generalizing conv with
  | nil => cases hm
  | cons hd t ih =>
    obtain ⟨k0, v0⟩ := hd
    simp only [convRows] at hc
    cases hv : pyFloat v0 with
    | error e => rw [hv] at hc; cases hc
    | ok q0 =>
      rw [hv] at hc
      cases ht : convRows t with
      | error e => rw [ht] at hc; cases hc
      | ok tail =>
        rw [ht] at hc
        cases hc
        rcases List.mem_cons.mp hm with he | hmt
        · injection he with hk hv2
          subst hk
          subst hv2
          have hqq : q0 = q := by
            rw [hv] at hq
            exact Except.ok.inj hq
          rw [hqq]
          exact List.mem_cons_self _ _
        · exact List.mem_cons_of_mem _ (ih tail ht hmt)

/-! ### Facts about the chart builder and the per-model rendering -/

theorem plot_probabilities_obj (pkvs : List (String × Json)) (conv : List (String × ℚ))
    (hc : convRows pkvs = .ok conv) :
    plot_probabilities (.obj pkvs) =
      .ok (sortRows (conv.map (fun p => ChartRow.mk (format_label p.1) p.2 (formatPct1 p.2)))) := by
  simp only [plot_probabilities]
  rw [hc]

theorem plot_probabilities_ok (pkvs : List (String × Json))
    (h : ∀ p ∈ pkvs, exOk (pyFloat p.2) = true) :
    ∃ rows, plot_probabilities (.obj pkvs) = .ok rows := by
  obtain ⟨conv, hc⟩ := convRows_ok pkvs h
  exact ⟨_, plot_probabilities_obj pkvs conv hc⟩

theorem renderModel_none_none (mkvs : List (String × Json))
    (h1 : lookupField mkvs "top_intent" = none)
    (h2 : lookupField mkvs "all_probs" = none) :
    renderModel (.obj mkvs) =
      .ok (ModelView.mk "Desconhecido" "0.0%" (.num 0) none) := by
  simp only [renderModel]
  rw [h1, h2]
  rfl

theorem renderModel_ok_view (mkvs pkvs : List (String × Json)) (t : String)
    (h1 : lookupField mkvs "top_intent" = some (.str t))
    (h2 : lookupField mkvs "all_probs" = some (.obj pkvs))
    (h3 : lookupField pkvs t = none)
    (h4 : ∀ p ∈ pkvs, exOk (pyFloat p.2) = true) :
    ∃ v, renderModel (.obj mkvs) = .ok v ∧
      v.topScore = .num 0 ∧ v.cardPct = "0.0%" ∧ v.cardLabel = format_label t := by
  simp only [renderModel]
  rw [h1, h2]
  simp only [Option.getD_some]
  simp only [pyDictGet]
  rw [h3]
  simp only [Option.getD_none]
  cases pkvs with
  | nil =>
    exact ⟨ModelView.mk (format_label t) "0.0%" (.num 0) none, rfl, rfl, rfl, rfl⟩
  | cons hd tl =>
    obtain ⟨rows, hrows⟩ := plot_probabilities_ok (hd :: tl) h4
    rw [show (Json.truthy (.obj (hd :: tl))) = true from rfl]
    simp only [if_true]
    rw [hrows]
    exact ⟨ModelView.mk (format_label t) "0.0%" (.num 0) (some rows), rfl, rfl, rfl, rfl⟩

theorem renderModels_abort (pre : List (String × Json)) (k : String) (md : Json)
    (rest : List (String × Json)) (e : PyError)
    (hpre : ∀ p ∈ pre, exOk (renderModel p.2) = true)
    (he : renderModel md = .error e) :
    (renderModels (pre ++ (k, md) :: rest)).1.length = pre.length ∧
      (renderModels (pre ++ (k, md) :: rest)).2 = some e := by
  induction pre with
  | nil =>
    simp only [List.nil_append, renderModels]
    rw [he]
    exact ⟨rfl, rfl⟩
  | cons hd t ih =>
    obtain ⟨k0, md0⟩ := hd
    have h1 : exOk (renderModel md0) = true := hpre (k0, md0) (List.mem_cons_self _ _)
    obtain ⟨v, hv⟩ : ∃ v, renderModel md0 = .ok v := by
      cases hr : renderModel md0 with
      | ok v => exact ⟨v, rfl⟩
      | error e2 => rw [hr] at h1; simp [exOk] at h1
    have ih2 := ih (fun p hp => hpre p (List.mem_cons_of_mem _ hp))
    simp only [List.cons_append, renderModels]
    rw [hv]
    simp only [List.append_eq, List.length_cons]
    exact ⟨by rw [ih2.1], ih2.2⟩

/-! ### Facts about the orchestration step -/

theorem processData_noPreds (off : ℤ) (kvs : List (String × Json))
    (h : ((lookupField kvs "predictions").getD (.obj [])).truthy = false) :
    processData off (.obj kvs) =
      Display.mk (some (buildMeta off kvs)) (some noPredictionsMsg) [] [] := by
  simp only [processData]
  rw [h]
  rfl

theorem pyStrip_all_space (s : String) (h : ∀ c ∈ s.data, pySpace c = true) :
    pyStrip s = "" := by
  unfold pyStrip
  have h1 : s.data.dropWhile pySpace = [] := by
    rw [List.dropWhile_eq_nil_iff]
    exact fun x hx => h x hx
  rw [h1]
  rfl

/-! ### Claim C1 — all-or-nothing validation of model entries -/

/-- C1 counterexample: a response whose `model_b` entry lacks both
`top_intent` and `all_probs` is NOT rejected — no error is raised and both
models render (the malformed one with the default card), contradicting the
claimed all-or-nothing `ValidationFailure`. -/
theorem C1_counterexample_mixed_entries_rendered :
    (processData 0 dataMixedEntries).errorMsg = none ∧
    (processData 0 dataMixedEntries).views =
      [ModelView.mk "Order status" "82.0%" (.num (mkRat 41 50))
        (some [ChartRow.mk "Order status" (mkRat 41 50) "82.0%"]),
       ModelView.mk "Desconhecido" "0.0%" (.num 0) none] := ⟨rfl, rfl⟩

/-- C1 (amended): a model entry lacking `top_intent` and `all_probs` is not
rejected; rendering substitutes the defaults — card label "Desconhecido",
top score 0.0 shown as "0.0%", and the no-probability-data placeholder
instead of a chart. -/
theorem C1_missing_fields_render_defaults (mkvs : List (String × Json))
    (h1 : lookupField mkvs "top_intent" = none)
    (h2 : lookupField mkvs "all_probs" = none) :
    renderModel (.obj mkvs) =
      .ok (ModelView.mk "Desconhecido" "0.0%" (.num 0) none) :=
  renderModel_none_none mkvs h1 h2

/-- C1 witness: the amended theorem applied to a concrete entry with neither
field present. -/
theorem C1_missing_fields_render_defaults_witness :
    renderModel (.obj [("note", Json.null)]) =
      .ok (ModelView.mk "Desconhecido" "0.0%" (.num 0) none) :=
  C1_missing_fields_render_defaults [("note", Json.null)] rfl rfl

/-! ### Claim C2 — range invariant on confidence values -/

/-- C2 counterexample: a response with confidence 1.5 in `all_probs` is NOT
rejected — no error is raised and the chart row carries the out-of-range
value 3/2, contradicting the claimed range validation. -/
theorem C2_counterexample_out_of_range_rendered :
    (processData 0 dataOutOfRange).errorMsg = none ∧
    (processData 0 dataOutOfRange).views =
      [ModelView.mk "A" "150.0%" (.num (mkRat 3 2))
        (some [ChartRow.mk "A" (mkRat 3 2) "150.0%"])] := ⟨rfl, rfl⟩

/-- C2 (amended): confidence values are neither validated nor clamped: every
entry of the probability mapping that converts to a float appears in the
produced chart rows with exactly its input value, whether or not it lies in
the unit interval. -/
theorem C2_confidence_passthrough (pkvs : List (String × Json)) (k : String)
    (v : Json) (q : ℚ) (rows : List ChartRow)
    (hm : (k, v) ∈ pkvs) (hq : pyFloat v = .ok q)
    (hrows : plot_probabilities (.obj pkvs) = .ok rows) :
    ChartRow.mk (format_label k) q (formatPct1 q) ∈ rows := by
  cases hc : convRows pkvs with
  | error e => simp [plot_probabilities, hc] at hrows
  | ok conv =>
    rw [plot_probabilities_obj pkvs conv hc] at hrows
    rw [← Except.ok.inj hrows]
    apply mem_sortRows
    apply List.mem_map.mpr
    exact ⟨(k, q), convRows_mem pkvs conv k v q hc hm hq, rfl⟩

/-- C2 witness: the amended theorem applied to the out-of-range mapping. -/
theorem C2_confidence_passthrough_witness :
    ChartRow.mk (format_label "a") (mkRat 3 2) (formatPct1 (mkRat 3 2)) ∈
      [ChartRow.mk "A" (mkRat 3 2) "150.0%"] :=
  C2_confidence_passthrough [("a", .num (mkRat 3 2))] "a" (.num (mkRat 3 2))
    (mkRat 3 2) [ChartRow.mk "A" (mkRat 3 2) "150.0%"]
    (List.mem_cons_self _ _) rfl rfl

/-! ### Claim C3 — presentation never throws / per-field degradation -/

/-- C3 counterexample: a numeric `top_intent` in the first model entry makes
the card formatting raise; the generic handler reports an error and NO model
content is rendered — the well-formed second entry included — contradicting
the claim that a formatting failure degrades to a placeholder for that field
only. -/
theorem C3_counterexample_abort :
    (processData 0 dataBadThenGood).errorMsg = some (genericErrorMsg .attributeError) ∧
    (processData 0 dataBadThenGood).views = [] ∧
    (processData 0 dataBadThenGood).tabLabels = ["A", "B"] := ⟨rfl, rfl, rfl⟩

/-- C3 (amended): a formatting failure in one model entry aborts the whole
remaining presentation: entries before it keep their rendered views, the
failing entry and every later entry render nothing, and the exception
surfaces to the surrounding generic handler. -/
theorem C3_formatting_error_aborts_rest (pre : List (String × Json)) (k : String)
    (md : Json) (rest : List (String × Json)) (e : PyError)
    (hpre : ∀ p ∈ pre, exOk (renderModel p.2) = true)
    (he : renderModel md = .error e) :
    (renderModels (pre ++ (k, md) :: rest)).1.length = pre.length ∧
      (renderModels (pre ++ (k, md) :: rest)).2 = some e :=
  renderModels_abort pre k md rest e hpre he

/-- C3 witness: one good entry followed by the bad entry — only the good one
renders and the error is reported. -/
theorem C3_formatting_error_aborts_rest_witness :
    (renderModels ([("b", goodEntry)] ++ ("k", badEntry) :: [])).1.length = 1 ∧
      (renderModels ([("b", goodEntry)] ++ ("k", badEntry) :: [])).2 =
        some .attributeError :=
  C3_formatting_error_aborts_rest [("b", goodEntry)] "k" badEntry [] .attributeError
    (by decide) rfl

/-! ### Claim C4 — default top score -/

/-- C4: when `top_intent` is a string that is not a key of the `all_probs`
mapping (including the empty mapping), rendering succeeds — never a lookup
failure — and the displayed top score is 0.0, formatted "0.0%". -/
theorem C4_top_score_defaults_to_zero (mkvs pkvs : List (String × Json)) (t : String)
    (h1 : lookupField mkvs "top_intent" = some (.str t))
    (h2 : lookupField mkvs "all_probs" = some (.obj pkvs))
    (h3 : lookupField pkvs t = none)
    (h4 : ∀ p ∈ pkvs, exOk (pyFloat p.2) = true) :
    ∃ v, renderModel (.obj mkvs) = .ok v ∧
      v.topScore = .num 0 ∧ v.cardPct = "0.0%" ∧ v.cardLabel = format_label t :=
  renderModel_ok_view mkvs pkvs t h1 h2 h3 h4

/-- C4 witness: the theorem applied to an entry whose top intent is absent
from its probability mapping. -/
theorem C4_top_score_defaults_to_zero_witness :
    ∃ v, renderModel (.obj [("top_intent", .str "order_status"),
        ("all_probs", .obj [("greeting", .num (mkRat 1 2))])]) = .ok v ∧
      v.topScore = .num 0 ∧ v.cardPct = "0.0%" ∧
      v.cardLabel = format_label "order_status" :=
  C4_top_score_defaults_to_zero
    [("top_intent", .str "order_status"), ("all_probs", .obj [("greeting", .num (mkRat 1 2))])]
    [("greeting", .num (mkRat 1 2))] "order_status" rfl rfl rfl (by decide)

/-! ### Claim C5 — chart rows sorted by ascending confidence -/

/-- C5: every row sequence produced by the chart builder is non-decreasing in
confidence (ascending sort, largest value last). -/
theorem C5_chart_rows_ascending (j : Json) (rows : List ChartRow)
    (h : plot_probabilities j = .ok rows) :
    rows.Pairwise (fun a b => a.conf ≤ b.conf) := by
  cases j with
  | obj pkvs =>
    cases hc : convRows pkvs with
    | error e => simp [plot_probabilities, hc] at h
    | ok conv =>
      rw [plot_probabilities_obj pkvs conv hc] at h
      rw [← Except.ok.inj h]
      exact sortRows_pairwise _
  | null => simp [plot_probabilities] at h
  | bool b => simp [plot_probabilities] at h
  | num q => simp [plot_probabilities] at h
  | str s => simp [plot_probabilities] at h
  | arr xs => simp [plot_probabilities] at h

/-- C5 witness: the theorem applied to a two-entry mapping given in
descending order; the builder returns it ascending and the theorem yields
the ordering fact. -/
theorem C5_chart_rows_ascending_witness :
    plot_probabilities probsTwo =
      .ok [ChartRow.mk "B" (mkRat 1 4) "25.0%", ChartRow.mk "A" (mkRat 1 2) "50.0%"] ∧
    List.Pairwise (fun a b => a.conf ≤ b.conf)
      [ChartRow.mk "B" (mkRat 1 4) "25.0%", ChartRow.mk "A" (mkRat 1 2) "50.0%"] :=
  ⟨rfl, C5_chart_rows_ascending probsTwo
    [ChartRow.mk "B" (mkRat 1 4) "25.0%", ChartRow.mk "A" (mkRat 1 2) "50.0%"] rfl⟩

/-! ### Claim C6 — success scenario -/

/-- C6: on the specification's success payload the top card shows
"Order status" at "82.0%" and the chart rows appear in ascending order
greeting 8.0%, complaint 10.0%, order status 82.0%. -/
theorem C6_success_scenario :
    processData 0 dataSuccess =
      Display.mk
        (some (MetaPanel.mk (.str "N/A") (.str "N/A") .omitted))
        none
        ["MODEL_A"]
        [ModelView.mk "Order status" "82.0%" (.num (mkRat 82 100))
          (some [ChartRow.mk "Greeting" (mkRat 8 100) "8.0%",
                 ChartRow.mk "Complaint" (mkRat 10 100) "10.0%",
                 ChartRow.mk "Order status" (mkRat 82 100) "82.0%"])] := rfl

/-! ### Claim C7 — empty-predictions rejection -/

/-- C7 counterexample: a truthy non-mapping `predictions` value (the string
"x") does not produce the no-predictions message; iterating its keys raises
and the generic handler reports the failure instead, so the claimed uniform
`ValidationFailure("no predictions returned")` does not hold for every
non-mapping `predictions`. -/
theorem C7_counterexample_nonmapping_predictions :
    (processData 0 dataPredsNotMapping).errorMsg = some (genericErrorMsg .attributeError) ∧
    (processData 0 dataPredsNotMapping).errorMsg ≠ some noPredictionsMsg ∧
    (processData 0 dataPredsNotMapping).tabLabels = [] ∧
    (processData 0 dataPredsNotMapping).views = [] := ⟨rfl, by decide, rfl, rfl⟩

/-- C7 (amended): when `predictions` is missing or falsy (in particular an
empty mapping), the displayed error is exactly `noPredictionsMsg` — the
source's Portuguese no-predictions message — no tabs or views are rendered,
and the metadata sidebar is still rendered. -/
theorem C7_falsy_predictions_message (off : ℤ) (kvs : List (String × Json))
    (h : ((lookupField kvs "predictions").getD (.obj [])).truthy = false) :
    processData off (.obj kvs) =
      Display.mk (some (buildMeta off kvs)) (some noPredictionsMsg) [] [] :=
  processData_noPreds off kvs h

/-- C7 witness: an empty predictions mapping next to a present `id`; the
no-predictions message is shown while the metadata panel still renders. -/
theorem C7_falsy_predictions_message_witness :
    processData 0 (.obj [("id", .str "abc"), ("predictions", .obj [])]) =
      Display.mk (some (buildMeta 0 [("id", .str "abc"), ("predictions", .obj [])]))
        (some noPredictionsMsg) [] [] :=
  C7_falsy_predictions_message 0 [("id", .str "abc"), ("predictions", .obj [])] rfl

/-! ### Claim C8 — timestamp interpretation policy -/

/-- C8 counterexample: the numeric epoch value 0 is present and numeric, yet
the metadata panel omits the timestamp line entirely (the code guards on
Python truthiness, and 0 is falsy), contradicting the claim that numeric
values are formatted. -/
theorem C8_counterexample_zero_timestamp_omitted :
    (buildMeta 0 [("timestamp", Json.num 0)]).tsDisp = .omitted := rfl

/-- C8 (amended): for the timestamp field of the metadata panel: a truthy
non-numeric value is echoed raw without raising; a truthy in-range numeric
value is formatted dd/mm/yyyy hh:mm in local time; a truthy numeric value
outside the datetime range is echoed raw; an absent timestamp is omitted;
and a present but falsy timestamp (such as the number 0 or the empty
string) is also omitted. -/
theorem C8_timestamp_policy (off : ℤ) (kvs : List (String × Json)) (v : Json) (q : ℚ) :
    (lookupField kvs "timestamp" = some v → v.truthy = true → pyNumVal v = none →
      (buildMeta off kvs).tsDisp = .raw v) ∧
    (lookupField kvs "timestamp" = some v → v.truthy = true → pyNumVal v = some q →
      tsInRange off q = true → (buildMeta off kvs).tsDisp = .formatted (strftimeDMYHM off q)) ∧
    (lookupField kvs "timestamp" = some v → v.truthy = true → pyNumVal v = some q →
      tsInRange off q = false → (buildMeta off kvs).tsDisp = .raw v) ∧
    (lookupField kvs "timestamp" = none → (buildMeta off kvs).tsDisp = .omitted) ∧
    (lookupField kvs "timestamp" = some v → v.truthy = false →
      (buildMeta off kvs).tsDisp = .omitted) := by
  refine ⟨?_, ?_, ?_, ?_, ?_⟩
  · intro h1 h2 h3
    simp [buildMeta, h1, h2, h3]
  · intro h1 h2 h3 h4
    simp [buildMeta, h1, h2, h3, h4]
  · intro h1 h2 h3 h4
    simp [buildMeta, h1, h2, h3, h4]
  · intro h1
    simp [buildMeta, h1, Json.truthy]
  · intro h1 h2
    simp [buildMeta, h1, h2]

/-- C8 witness: the theorem applied to the unparsable string scenario, to a
nonzero in-range numeric timestamp, and to an absent timestamp. -/
theorem C8_timestamp_policy_witness :
    (buildMeta 0 [("timestamp", .str "not-a-number")]).tsDisp =
      .raw (.str "not-a-number") ∧
    (buildMeta 0 [("timestamp", .num 1760227200)]).tsDisp =
      .formatted (strftimeDMYHM 0 1760227200) ∧
    (buildMeta 0 [("owner", .str "me")]).tsDisp = .omitted :=
  ⟨(C8_timestamp_policy 0 [("timestamp", .str "not-a-number")]
      (.str "not-a-number") 0).1 rfl rfl rfl,
   (C8_timestamp_policy 0 [("timestamp", .num 1760227200)]
      (.num 1760227200) 1760227200).2.1 rfl (by decide) rfl (by decide),
   (C8_timestamp_policy 0 [("owner", .str "me")] Json.null 0).2.2.2.1 rfl⟩

/-! ### Claim C9 — idempotence of label formatting -/

/-- C9: applying the label-formatting rule twice (replace underscores by
spaces, uppercase the first character, lowercase the rest) gives the same
result as applying it once. -/
theorem C9_format_label_idempotent (s : String) :
    format_label (format_label s) = format_label s := by
  unfold format_label
  simp only [replaceChar, pyCapitalize_mk]
  congr 1
  apply capList_repl_capList
  intro x hx
  obtain ⟨y, _, hy⟩ := List.mem_map.mp hx
  rw [← hy]
  by_cases hy2 : y = '_'
  · rw [if_pos hy2]; decide
  · rw [if_neg hy2]; exact hy2

/-! ### Claim C10 — blank-input guard -/

/-- C10: when every character of the input text is whitespace (including the
empty input), pressing analyze warns and returns before any request is
dispatched. -/
theorem C10_blank_input_no_dispatch (s : String)
    (h : ∀ c ∈ s.data, pySpace c = true) :
    analyzeAction s = AnalyzeTrace.mk true false := by
  unfold analyzeAction
  rw [pyStrip_all_space s h]
  rfl

/-- C10 witness: the theorem applied to the empty input and to an input of
spaces and a tab. -/
theorem C10_blank_input_no_dispatch_witness :
    analyzeAction "" = AnalyzeTrace.mk true false ∧
    analyzeAction "  \t " = AnalyzeTrace.mk true false :=
  ⟨C10_blank_input_no_dispatch "" (by decide),
   C10_blank_input_no_dispatch "  \t " (by decide)⟩
